import Mathlib

/-!
# Verification of the hypermangle local control-plane channel

Shallow embedding of `src/hypermangle-core/src/console.rs` (and the call site
in `src/hypermangle-core/src/lib.rs`): message framing, the existence probe,
the client forwarder loop, the control-listener dispatch loop, and the
`RemoteClient` output handle.

Modelling conventions:
* Bytes are `Nat` (valid bytes are `< 256`); byte sequences are `List Nat`.
  Rust `String` and `OsString` payloads are modelled as their byte sequences.
* The target is assumed to be 64-bit little-endian unix (so `usize` is 8
  bytes, `to_ne_bytes`/`from_ne_bytes` are little-endian, and serde's
  `OsString` wire form is the `Unix(Vec<u8>)` variant, index 0).
* `bincode::serialize` (bincode 1.x default options) uses fixed-width
  little-endian integer encoding: enum variant tags are `u32` (4 bytes),
  collection lengths are `u64` (8 bytes), and `bincode::deserialize`
  tolerates trailing bytes.
* Fallible operations return `Option`/`Except`; a Rust panic is modelled as a
  distinguished outcome constructor (or `Option.none` where noted).
-/

namespace Hypermangle

/-- The `BaseCommand` enum of `console.rs` (the spec's `ControlMessage`):
`IdRequest`, `IdResponse(u32)`, `Args(Vec<OsString>)`, `Packet(String)`,
`CloseSocket`. `OsString`/`String` payloads are modelled as byte lists. -/
inductive BaseCommand where
  | IdRequest : BaseCommand
  | IdResponse (pid : Nat) : BaseCommand
  | Args (argv : List (List Nat)) : BaseCommand
  | Packet (s : List Nat) : BaseCommand
  | CloseSocket : BaseCommand
deriving DecidableEq, Repr

/-- Fixed-width little-endian encoding of `n` into `w` bytes
(`u32`/`u64`/`usize::to_ne_bytes` on a little-endian target). -/
def toLe : Nat → Nat → List Nat
  | 0, _ => []
  | w + 1, n => n % 256 :: toLe w (n / 256)

/-- Little-endian read of a byte list (`from_ne_bytes` on a little-endian
target). -/
def fromLe : List Nat → Nat
  | [] => 0
  | b :: bs => b + 256 * fromLe bs

/-- Take exactly `w` bytes off the front of a stream, failing when the stream
is too short (`read_exact` on a buffered stream). -/
def readBytes : Nat → List Nat → Option (List Nat × List Nat)
  | 0, l => some ([], l)
  | _ + 1, [] => none
  | w + 1, b :: l => do
    let (bs, rest) ← readBytes w l
    some (b :: bs, rest)

@[simp] theorem toLe_length (w n : Nat) : (toLe w n).length = w := by
  induction w generalizing n with
  | zero => rfl
  | succ w ih => simp [toLe, ih]

theorem fromLe_toLe (w n : Nat) : fromLe (toLe w n) = n % 256 ^ w := by
  induction w generalizing n with
  | zero => simp [toLe, fromLe, Nat.mod_one]
  | succ w ih =>
    rw [toLe, fromLe, ih, pow_succ, mul_comm (256 ^ w) 256, Nat.mod_mul]

theorem fromLe_toLe_of_lt {w n : Nat} (h : n < 256 ^ w) :
    fromLe (toLe w n) = n := by
  rw [fromLe_toLe, Nat.mod_eq_of_lt h]

theorem readBytes_append (l rest : List Nat) :
    readBytes l.length (l ++ rest) = some (l, rest) := by
  induction l with
  | nil => rfl
  | cons b bs ih => simp [readBytes, ih]

/-- bincode 1.x serialization of one `OsString` (serde writes it as the enum
variant `Unix(Vec<u8>)` on a unix target): `u32` variant index 0, then the
`u64` byte count, then the bytes. -/
def encodeOsStr (s : List Nat) : List Nat := toLe 4 0 ++ toLe 8 s.length ++ s

/-- bincode 1.x serialization of a `BaseCommand` (`bincode::serialize` in
`send_msg`, console.rs:61): a `u32` variant tag followed by the payload;
`u32` fields are 4 bytes, lengths are `u64` (8 bytes), all little-endian. -/
def encodeMsg : BaseCommand → List Nat
  | .IdRequest => toLe 4 0
  | .IdResponse pid => toLe 4 1 ++ toLe 4 pid
  | .Args argv => toLe 4 2 ++ toLe 8 argv.length ++ (argv.map encodeOsStr).flatten
  | .Packet s => toLe 4 3 ++ toLe 8 s.length ++ s
  | .CloseSocket => toLe 4 4

/-- Read a `w`-byte little-endian unsigned integer off the stream. -/
def readLe (w : Nat) (l : List Nat) : Option (Nat × List Nat) := do
  let (bs, rest) ← readBytes w l
  some (fromLe bs, rest)

/-- Read a bincode byte sequence: `u64` count, then that many bytes. -/
def readByteSeq (l : List Nat) : Option (List Nat × List Nat) := do
  let (n, rest) ← readLe 8 l
  readBytes n rest

/-- bincode deserialization of one `OsString`: `u32` variant index, which on
a unix target must be 0 (`Unix`), then the byte sequence. -/
def readOsStr (l : List Nat) : Option (List Nat × List Nat) := do
  let (tag, rest) ← readLe 4 l
  if tag = 0 then readByteSeq rest else none

/-- bincode deserialization of a `Vec<OsString>` body of known element
count. -/
def readOsStrList : Nat → List Nat → Option (List (List Nat) × List Nat)
  | 0, l => some ([], l)
  | n + 1, l => do
    let (s, rest) ← readOsStr l
    let (ss, rest2) ← readOsStrList n rest
    some (s :: ss, rest2)

/-- Embedding of `bincode::deserialize` of a `BaseCommand` from a frame body
(`recv_msg`, console.rs:79): read the `u32` variant tag, then the payload;
unknown tags are errors; trailing bytes are tolerated (bincode 1.x
`deserialize` default). -/
def deserializeMsg (l : List Nat) : Option BaseCommand := do
  let (tag, rest) ← readLe 4 l
  match tag with
  | 0 => some .IdRequest
  | 1 => do
    let (pid, _) ← readLe 4 rest
    some (.IdResponse pid)
  | 2 => do
    let (n, rest2) ← readLe 8 rest
    let (argv, _) ← readOsStrList n rest2
    some (.Args argv)
  | 3 => do
    let (s, _) ← readByteSeq rest
    some (.Packet s)
  | 4 => some .CloseSocket
  | _ => none

/-- Embedding of `send_msg` (console.rs:60-68): serialize the message with bincode, then
prepend `msg.len().to_ne_bytes()` (`usize`, 8 bytes, little-endian); the
result is the byte sequence written to the stream. -/
def send_msg (m : BaseCommand) : List Nat :=
  toLe 8 (encodeMsg m).length ++ encodeMsg m

/-- Embedding of `recv_msg` (console.rs:70-80): `read_exact` an 8-byte `usize` length,
`read_exact` that many body bytes, then `bincode::deserialize` the body.
Returns the decoded message and the unread remainder of the stream. -/
def recv_msg (l : List Nat) : Option (BaseCommand × List Nat) := do
  let (sz, rest) ← readLe 8 l
  let (body, rest2) ← readBytes sz rest
  let m ← deserializeMsg body
  some (m, rest2)

/-- A constructible `BaseCommand`: `u32` payloads fit in 32 bits, real
vectors and strings have fewer than `2^64` elements (their length is a
`usize`), and string/`OsString` contents are bytes. -/
def validMsg : BaseCommand → Prop
  | .IdResponse pid => pid < 2 ^ 32
  | .Args argv => argv.length < 2 ^ 64 ∧ ∀ s ∈ argv, s.length < 2 ^ 64 ∧ ∀ b ∈ s, b < 256
  | .Packet s => s.length < 2 ^ 64 ∧ ∀ b ∈ s, b < 256
  | _ => True

theorem readLe_toLe_append {w n : Nat} (rest : List Nat) (h : n < 256 ^ w) :
    readLe w (toLe w n ++ rest) = some (n, rest) := by
  have hb := readBytes_append (toLe w n) rest
  rw [toLe_length] at hb
  simp [readLe, hb, fromLe_toLe_of_lt h]

theorem pow256_eq (w : Nat) : (256 : Nat) ^ w = 2 ^ (8 * w) := by
  rw [show (256 : Nat) = 2 ^ 8 from rfl, ← pow_mul]

theorem readByteSeq_append (s rest : List Nat) (h : s.length < 2 ^ 64) :
    readByteSeq (toLe 8 s.length ++ (s ++ rest)) = some (s, rest) := by
  have h' : s.length < 256 ^ 8 := by rw [pow256_eq]; exact h
  simp [readByteSeq, readLe_toLe_append _ h', readBytes_append]

theorem readOsStr_append (s rest : List Nat) (h : s.length < 2 ^ 64) :
    readOsStr (encodeOsStr s ++ rest) = some (s, rest) := by
  have h0 : (0 : Nat) < 256 ^ 4 := by norm_num
  rw [encodeOsStr]
  simp only [List.append_assoc]
  simp only [readOsStr, readLe_toLe_append _ h0]
  simpa using readByteSeq_append s rest h

theorem readOsStrList_append (argv : List (List Nat)) (rest : List Nat)
    (h : ∀ s ∈ argv, s.length < 2 ^ 64) :
    readOsStrList argv.length ((argv.map encodeOsStr).flatten ++ rest) =
      some (argv, rest) := by
  induction argv with
  | nil => rfl
  | cons s ss ih =>
    have hs : s.length < 2 ^ 64 := h s (by simp)
    have hss : ∀ t ∈ ss, t.length < 2 ^ 64 := fun t ht => h t (by simp [ht])
    simp only [List.length_cons, List.map_cons, List.flatten_cons,
      List.append_assoc]
    rw [readOsStrList, readOsStr_append s _ hs]
    simp [ih hss]

/-- Message-level round trip with arbitrary trailing bytes: bincode
deserialization of the serialization of any constructible message yields the
message back (trailing bytes are tolerated). -/
theorem deserializeMsg_encodeMsg (m : BaseCommand) (junk : List Nat)
    (h : validMsg m) : deserializeMsg (encodeMsg m ++ junk) = some m := by
  cases m with
  | IdRequest =>
    simp [deserializeMsg, encodeMsg,
      readLe_toLe_append junk (by norm_num : (0 : Nat) < 256 ^ 4)]
  | IdResponse pid =>
    have hp : pid < 256 ^ 4 := by
      rw [pow256_eq]; exact h
    rw [encodeMsg]
    simp only [List.append_assoc]
    simp [deserializeMsg,
      readLe_toLe_append _ (by norm_num : (1 : Nat) < 256 ^ 4),
      readLe_toLe_append junk hp]
  | Args argv =>
    obtain ⟨hlen, hall⟩ := h
    have hlen' : argv.length < 256 ^ 8 := by rw [pow256_eq]; exact hlen
    have h2 := readLe_toLe_append ((argv.map encodeOsStr).flatten ++ junk) hlen'
    have h3 := readOsStrList_append argv junk (fun s hs => (hall s hs).1)
    rw [encodeMsg]
    simp only [List.append_assoc]
    simp [deserializeMsg,
      readLe_toLe_append _ (by norm_num : (2 : Nat) < 256 ^ 4), h2, h3]
  | Packet s =>
    obtain ⟨hlen, -⟩ := h
    have h2 := readByteSeq_append s junk hlen
    rw [encodeMsg]
    simp only [List.append_assoc]
    simp [deserializeMsg,
      readLe_toLe_append _ (by norm_num : (3 : Nat) < 256 ^ 4), h2]
  | CloseSocket =>
    simp [deserializeMsg, encodeMsg,
      readLe_toLe_append junk (by norm_num : (4 : Nat) < 256 ^ 4)]

theorem deserializeMsg_encodeMsg_nil (m : BaseCommand) (h : validMsg m) :
    deserializeMsg (encodeMsg m) = some m := by
  have hm := deserializeMsg_encodeMsg m [] h
  rwa [List.append_nil] at hm

/-- C3: for every constructible `ControlMessage` m, decoding (`recv_msg`)
the frame produced by encoding m (`send_msg`) yields a message equal to m,
leaving any bytes that follow the frame unread. -/
theorem C3_roundtrip (m : BaseCommand) (rest : List Nat) (h : validMsg m)
    (hlen : (encodeMsg m).length < 2 ^ 64) :
    recv_msg (send_msg m ++ rest) = some (m, rest) := by
  have hlen' : (encodeMsg m).length < 256 ^ 8 := by rw [pow256_eq]; exact hlen
  have h1 := readLe_toLe_append (encodeMsg m ++ rest) hlen'
  have h2 := readBytes_append (encodeMsg m) rest
  have h3 := deserializeMsg_encodeMsg_nil m h
  rw [send_msg]
  simp only [List.append_assoc]
  simp [recv_msg, h1, h2, h3]

/-- Witness for C3 at a concrete `Args` message with two argument strings
and trailing stream bytes. -/
theorem C3_roundtrip_witness :
    recv_msg (send_msg (.Args [[104, 109], [107]]) ++ [7, 7]) =
      some (.Args [[104, 109], [107]], [7, 7]) := by
  refine C3_roundtrip (.Args [[104, 109], [107]]) [7, 7] ?_ ?_
  · show _ ∧ _
    refine ⟨by norm_num, ?_⟩
    decide
  · decide

/-- Result of running `does_remote_exist`: either a returned `Option<u32>`
or a panic of the calling process. -/
inductive ProbeOutcome where
  | ret (r : Option Nat) : ProbeOutcome
  | panicked : ProbeOutcome
deriving DecidableEq, Repr

/-- Embedding of `does_remote_exist` (console.rs:48-58) as a function of the transport's
behavior on this run: `connectOk` is whether `LocalSocketStream::connect`
succeeds, `sendOk` whether writing the `IdRequest` frame succeeds, `reply`
the result of `recv_msg` on the response. The code is
`let Ok(stream) = connect else return None`, then
`send_msg(IdRequest).await.ok()?`, then
`let Ok(IdResponse(id)) = recv_msg(..) else panic!(..)`. -/
def does_remote_exist (connectOk : Bool) (sendOk : Bool)
    (reply : Except Unit BaseCommand) : ProbeOutcome :=
  if !connectOk then .ret none
  else if !sendOk then .ret none
  else
    match reply with
    | .ok (.IdResponse id) => .ret (some id)
    | _ => .panicked

/-- C7: when no service is listening (the connect fails), the existence
probe returns `None` and never panics or escalates an error, whatever would
have happened later in the handshake. -/
theorem C7_probe_absent_returns_none (sendOk : Bool)
    (reply : Except Unit BaseCommand) :
    does_remote_exist false sendOk reply = .ret none := rfl

/-- C9: if the connect succeeds and the `IdRequest` send succeeds, but the
reply read fails or decodes to anything other than `IdResponse`, the probe
panics instead of returning `None` or a pid. -/
theorem C9_malformed_handshake_panics (reply : Except Unit BaseCommand)
    (h : ∀ id, reply ≠ .ok (.IdResponse id)) :
    does_remote_exist true true reply = .panicked := by
  cases reply with
  | error e => rfl
  | ok m =>
    cases m with
    | IdRequest => rfl
    | IdResponse id => exact absurd rfl (h id)
    | Args argv => rfl
    | Packet s => rfl
    | CloseSocket => rfl

/-- Witness for C9: a reply decoding to `CloseSocket` makes the probe
panic. -/
theorem C9_malformed_handshake_panics_witness :
    does_remote_exist true true (.ok .CloseSocket) = .panicked :=
  C9_malformed_handshake_panics (.ok .CloseSocket) (by intro id; simp)

/-- Outcome of the client forwarder's read loop, with the `Packet` texts
printed to stdout so far: `normalExit` is the `break` on `CloseSocket`,
`panicked` is the `expect` failing on a transport/decode error, `blocked`
means the script of incoming frames ran out with the loop still waiting. -/
inductive ForwardOutcome where
  | normalExit (printed : List (List Nat)) : ForwardOutcome
  | panicked (printed : List (List Nat)) : ForwardOutcome
  | blocked (printed : List (List Nat)) : ForwardOutcome
deriving DecidableEq, Repr

/-- The read loop of `send_args_to_remote` (console.rs:95-105) over a script
of `recv_msg` results: a transport/decode error makes the `expect` panic;
`Packet(msg)` is printed verbatim (`print!`, no separator appended) and the
loop continues; `CloseSocket` breaks out of the loop; any other message
falls into the `_ => {}` arm and the loop silently continues. -/
def forwardLoop :
    List (Except Unit BaseCommand) → List (List Nat) → ForwardOutcome
  | [], acc => .blocked acc
  | .error _ :: _, acc => .panicked acc
  | .ok m :: rest, acc =>
    match m with
    | .Packet s => forwardLoop rest (acc ++ [s])
    | .CloseSocket => .normalExit acc
    | _ => forwardLoop rest acc

/-- The `Packet` payloads of a script, in order (what the forwarder
prints). -/
def packetsOf (l : List (Except Unit BaseCommand)) : List (List Nat) :=
  l.filterMap fun x =>
    match x with
    | .ok (.Packet s) => some s
    | _ => none

/-- A script segment containing neither a read failure nor a `CloseSocket`
frame. -/
def quietScript (l : List (Except Unit BaseCommand)) : Prop :=
  ∀ x ∈ l, x ≠ Except.error () ∧ x ≠ Except.ok BaseCommand.CloseSocket

/-- C5 counterexample: the claim says any message other than `Packet` or
`CloseSocket` is a hard failure with non-zero exit; but when the forwarder
receives `IdResponse(3)` followed by `CloseSocket`, the `IdResponse` is
silently ignored (`_ => {}`) and the loop ends normally, printing
nothing — not a failure. -/
theorem C5_counterexample :
    forwardLoop [.ok (.IdResponse 3), .ok .CloseSocket] [] = .normalExit [] :=
  rfl

/-- C5 amended: after `Args` is sent, for any script segment with neither a
read error nor a `CloseSocket`, the forwarder prints exactly the `Packet`
payloads of the segment in order (each verbatim, no separator), silently
skipping every other message; a following `CloseSocket` stops the loop with
a normal exit, and a following transport error panics (hard failure)
reporting the error — in both cases nothing past that frame is read. -/
theorem C5_amended_forward_loop (pre post : List (Except Unit BaseCommand))
    (acc : List (List Nat)) (h : quietScript pre) :
    forwardLoop (pre ++ .ok .CloseSocket :: post) acc
        = .normalExit (acc ++ packetsOf pre) ∧
      forwardLoop (pre ++ .error () :: post) acc
        = .panicked (acc ++ packetsOf pre) := by
  induction pre generalizing acc with
  | nil => simp [forwardLoop, packetsOf]
  | cons x xs ih =>
    have hx := h x (by simp)
    have hxs : quietScript xs := fun y hy => h y (by simp [hy])
    cases x with
    | error e =>
      exact absurd rfl hx.1
    | ok m =>
      cases m with
      | IdRequest => simpa [forwardLoop, packetsOf] using ih acc hxs
      | IdResponse pid => simpa [forwardLoop, packetsOf] using ih acc hxs
      | Args argv => simpa [forwardLoop, packetsOf] using ih acc hxs
      | Packet s =>
        have := ih (acc ++ [s]) hxs
        simpa [forwardLoop, packetsOf] using this
      | CloseSocket => exact absurd rfl hx.2

/-- Witness for the amended C5 on a concrete script: a `Packet`, an ignored
`IdRequest`, another `Packet`, then `CloseSocket` (or a read error). -/
theorem C5_amended_forward_loop_witness :
    forwardLoop [.ok (.Packet [97]), .ok .IdRequest, .ok (.Packet [98]),
        .ok .CloseSocket] []
      = .normalExit [[97], [98]] ∧
    forwardLoop [.ok (.Packet [97]), .ok .IdRequest, .ok (.Packet [98]),
        .error ()] []
      = .panicked [[97], [98]] := by
  have h := C5_amended_forward_loop
    [.ok (.Packet [97]), .ok .IdRequest, .ok (.Packet [98])] [] []
    (by intro x hx; fin_cases hx <;> exact ⟨by simp, by simp⟩)
  simpa [packetsOf] using h

/-- The `RemoteClient` struct (console.rs:12-14): a
`stream: Option<LocalSocketStream>` field; the connection itself is kept
abstract. -/
structure RemoteClientSt (Conn : Type) where
  stream : Option Conn

/-- Construction at the dispatch site (console.rs:170-172):
`RemoteClient { stream: Some(stream) }`. -/
def mkRemoteClient {Conn : Type} (c : Conn) : RemoteClientSt Conn := ⟨some c⟩

/-- Embedding of `RemoteClient::send` (console.rs:17-21): `self.stream.as_mut().unwrap()`
then `send_msg` on the borrowed stream (the field keeps its value); the
outer `none` models the `unwrap` panicking. -/
def RemoteClientSt.sendStep {Conn : Type} (rc : RemoteClientSt Conn) :
    Option (RemoteClientSt Conn) :=
  match rc.stream with
  | some c => some ⟨some c⟩
  | none => none

/-- Embedding of `RemoteClient::drop` (console.rs:24-33):
`take(&mut self.stream).unwrap()` moves the stream out (leaving `None`) and
hands it to the detached CloseSocket task; the outer `none` models the
`unwrap` panicking. -/
def RemoteClientSt.dropStep {Conn : Type} (rc : RemoteClientSt Conn) :
    Option (RemoteClientSt Conn × Conn) :=
  match rc.stream with
  | some c => some (⟨none⟩, c)
  | none => none

/-- Runs `n` consecutive `RemoteClient::send` calls on a client. -/
def iterateSends {Conn : Type} (rc : RemoteClientSt Conn) :
    Nat → Option (RemoteClientSt Conn)
  | 0 => some rc
  | n + 1 => rc.sendStep.bind (iterateSends · n)

theorem iterateSends_mk {Conn : Type} (c : Conn) (n : Nat) :
    iterateSends (mkRemoteClient c) n = some (mkRemoteClient c) := by
  induction n with
  | zero => rfl
  | succ n ih => simpa [iterateSends, mkRemoteClient, RemoteClientSt.sendStep]
      using ih

/-- C10: a `RemoteClient` constructed by the dispatch loop starts with
`stream = Some`, every `send` leaves it `Some`, and the single `drop` (Rust
runs `Drop` at most once) takes a `Some` — so the lifecycle of any number of
sends followed by the drop never reaches either `unwrap` failure, and the
drop hands the original connection to the detached CloseSocket task. -/
theorem C10_unwraps_never_fail {Conn : Type} (c : Conn) (n : Nat) :
    (iterateSends (mkRemoteClient c) n).bind RemoteClientSt.dropStep
      = some (⟨none⟩, c) := by
  rw [iterateSends_mk]
  rfl

/-- What one dispatched handler run did: the `Packet` texts it pushed
through `RemoteClient::send` before finishing, and whether `execute`
returned a `bool` or panicked. -/
inductive HandlerOutcome where
  | ret (b : Bool) : HandlerOutcome
  | panicked : HandlerOutcome
deriving DecidableEq, Repr

/-- A handler run as seen from the dispatch loop. -/
structure HandlerRun where
  sends : List (List Nat)
  outcome : HandlerOutcome
deriving DecidableEq, Repr

/-- Control disposition of one iteration of the accept loop:
`next` is `continue`, `exitLoop` is the `break` on a `true` handler result,
`died` means a handler panic unwound `listen_for_commands_inner`. -/
inductive Ctl where
  | next : Ctl
  | exitLoop : Ctl
  | died : Ctl
deriving DecidableEq, Repr

/-- What one accepted connection produced: the frames whose write was
attempted on it, in order (including the CloseSocket attempted by the
detached task that `RemoteClient::drop` spawns), whether a `RemoteClient`
was constructed (equivalently: the handler was invoked), and the loop
disposition. -/
structure IterOut where
  writes : List BaseCommand
  dispatched : Bool
  ctl : Ctl
deriving DecidableEq, Repr

/-- One iteration body of `listen_for_commands_inner` for an accepted
connection (console.rs:154-183), parameterized by the host:
`parse` is `P::try_parse_from` (its error carries the bytes of
`e.to_string()`), `run` is `P::execute`'s behavior on the parsed command,
`pid` is `std::process::id()`, `first` is the `recv_msg` result for the
connection's first frame, and `wOk n` tells whether the n-th attempted frame
write on this connection succeeds.
Faithful control flow: a failed `unwrap!`-wrapped write logs and
`continue`s (so after `IdRequest`, the shared `send_msg(CloseSocket)` at
console.rs:182 is only attempted when the `IdResponse` write succeeded);
an unparseable `Args` answers with a `Packet` and closes; a parsed `Args`
moves the stream into a `RemoteClient`, awaits the handler, and the drop
writes the CloseSocket; every `RemoteClient` write failure is swallowed;
any other first frame falls through `_ => {}` (no logging) to the
CloseSocket write at console.rs:182. -/
def stepConn {Cmd : Type} (pid : Nat)
    (parse : List (List Nat) → Except (List Nat) Cmd)
    (run : Cmd → HandlerRun) (first : Except Unit BaseCommand)
    (wOk : Nat → Bool) : IterOut :=
  match first with
  | .error _ => ⟨[], false, .next⟩
  | .ok .IdRequest =>
    if wOk 0 then ⟨[.IdResponse pid, .CloseSocket], false, .next⟩
    else ⟨[.IdResponse pid], false, .next⟩
  | .ok (.Args argv) =>
    match parse argv with
    | .error e => ⟨[.Packet e], false, .next⟩
    | .ok cmd =>
      let r := run cmd
      ⟨r.sends.map BaseCommand.Packet ++ [.CloseSocket], true,
        match r.outcome with
        | .ret true => .exitLoop
        | .ret false => .next
        | .panicked => .died⟩
  | .ok _ => ⟨[.CloseSocket], false, .next⟩

/-- Events driving the accept loop, one per `tokio::select!` resolution:
the shutdown channel resolving, `listener.accept()` failing, or a
connection arriving with a given first-frame read result and write-success
oracle. -/
inductive Evt (Cmd : Type) where
  | shutdownSignal : Evt Cmd
  | acceptError : Evt Cmd
  | conn (first : Except Unit BaseCommand) (wOk : Nat → Bool) : Evt Cmd

/-- Final disposition of the `listen_for_commands_inner` loop:
`shutdownExit` is the `break` in the `receiver.recv()` select arm,
`handlerTrueExit` the `break` after a handler returned `true`,
`panickedExit` a handler panic unwinding the task, and `starved` means the
event script ran out while the loop was still accepting. -/
inductive LoopResult where
  | shutdownExit : LoopResult
  | handlerTrueExit : LoopResult
  | panickedExit : LoopResult
  | starved : LoopResult
deriving DecidableEq, Repr

/-- The accept loop of `listen_for_commands_inner` (console.rs:129-184)
over a script of events, collecting each accepted connection's attempted
write trace in order. -/
def listenLoop {Cmd : Type} (pid : Nat)
    (parse : List (List Nat) → Except (List Nat) Cmd)
    (run : Cmd → HandlerRun) :
    List (Evt Cmd) → List (List BaseCommand) × LoopResult
  | [] => ([], .starved)
  | .shutdownSignal :: _ => ([], .shutdownExit)
  | .acceptError :: rest => listenLoop pid parse run rest
  | .conn first wOk :: rest =>
    let out := stepConn pid parse run first wOk
    match out.ctl with
    | .next =>
      let (traces, res) := listenLoop pid parse run rest
      (out.writes :: traces, res)
    | .exitLoop => ([out.writes], .handlerTrueExit)
    | .died => ([out.writes], .panickedExit)

/-- The future returned by `listen_for_commands` (console.rs:112-119): it
captures the channel `sender` and then awaits `std::future::pending::<()>`,
which by its definition returns `Poll::Pending` on every poll — polling the
returned future any number of times never completes it. This is the exact
future handed to `with_graceful_shutdown` by `async_run_router`
(lib.rs:223-227). -/
def listenForCommandsFuturePoll (_pollCount : Nat) : Option Unit := none

/-- C1, evaluated at the failing input: a handler returning `true` does make
the inner accept loop break after its iteration (the following `IdRequest`
connection is never served — only one connection trace is produced), but the
graceful-shutdown future returned by `listen_for_commands` is not ready at
any poll, so the host's serve sequence never observes the exit and the
service does not terminate. Nothing in the code retires a shutdown signal
on the `true` result: the loop merely `break`s, and the only channel sender
sits unused inside the never-completing future. -/
theorem C1_true_breaks_loop_but_shutdown_never_completes :
    listenLoop 7 (fun _ : List (List Nat) => Except.ok ())
        (fun _ => ⟨[[107]], .ret true⟩)
        [.acceptError, .conn (.ok (.Args [[104]])) (fun _ => true),
          .conn (.ok .IdRequest) (fun _ => true)]
      = ([[.Packet [107], .CloseSocket]], .handlerTrueExit) ∧
    ∀ n : Nat, listenForCommandsFuturePoll n = none :=
  ⟨rfl, fun _ => rfl⟩

/-- C2: on every connection for which a `RemoteClient` is constructed (the
parse succeeded, so the handler was invoked), the attempted write trace
contains exactly one `CloseSocket` and it is the last frame, whatever the
handler outcome (normal return, early return, or panic unwinding — all
covered by the universally quantified `run`); and the iteration's result
does not depend on the write-success oracle at all, so neither the teardown
write's failure nor any other write failure on this path is propagated to
the loop. -/
theorem C2_exactly_one_close_socket {Cmd : Type} (pid : Nat)
    (parse : List (List Nat) → Except (List Nat) Cmd)
    (run : Cmd → HandlerRun) (argv : List (List Nat)) (cmd : Cmd)
    (wOk wOk' : Nat → Bool) (h : parse argv = .ok cmd) :
    (stepConn pid parse run (.ok (.Args argv)) wOk).writes.count
        .CloseSocket = 1 ∧
    (stepConn pid parse run (.ok (.Args argv)) wOk).writes.getLast?
        = some .CloseSocket ∧
    (stepConn pid parse run (.ok (.Args argv)) wOk).dispatched = true ∧
    stepConn pid parse run (.ok (.Args argv)) wOk'
        = stepConn pid parse run (.ok (.Args argv)) wOk := by
  simp only [stepConn, h]
  refine ⟨?_, ?_, by trivial, by trivial⟩
  · rw [List.count_append]
    have hz : ((run cmd).sends.map BaseCommand.Packet).count
        BaseCommand.CloseSocket = 0 := by
      rw [List.count_eq_zero]
      simp
    simp [hz]
  · exact List.getLast?_concat _

/-- Witness for C2 with a handler that sends one packet and returns `false`,
under two different write-success oracles. -/
theorem C2_exactly_one_close_socket_witness :
    (stepConn 9 (fun _ : List (List Nat) => Except.ok ())
        (fun _ => ⟨[[97]], .ret false⟩) (.ok (.Args [[120]]))
        (fun _ => true)).writes.count .CloseSocket = 1 ∧
    (stepConn 9 (fun _ : List (List Nat) => Except.ok ())
        (fun _ => ⟨[[97]], .ret false⟩) (.ok (.Args [[120]]))
        (fun _ => true)).writes.getLast? = some .CloseSocket ∧
    (stepConn 9 (fun _ : List (List Nat) => Except.ok ())
        (fun _ => ⟨[[97]], .ret false⟩) (.ok (.Args [[120]]))
        (fun _ => true)).dispatched = true ∧
    stepConn 9 (fun _ : List (List Nat) => Except.ok ())
        (fun _ => ⟨[[97]], .ret false⟩) (.ok (.Args [[120]]))
        (fun _ => false)
      = stepConn 9 (fun _ : List (List Nat) => Except.ok ())
        (fun _ => ⟨[[97]], .ret false⟩) (.ok (.Args [[120]]))
        (fun _ => true) :=
  C2_exactly_one_close_socket 9 _ _ [[120]] () (fun _ => true)
    (fun _ => false) rfl

/-- C4 counterexample: a dispatched handler that fails internally (panics)
does crash the listener loop: there is no isolation around
`args.execute(..)`, so the panic unwinds `listen_for_commands_inner` (the
loop ends `panickedExit`) and the following connection is never accepted —
the claim says the dispatch loop isolates handler execution and the
listener never crashes. -/
theorem C4_counterexample :
    listenLoop 7 (fun _ : List (List Nat) => Except.ok ())
        (fun _ => ⟨[], .panicked⟩)
        [.conn (.ok (.Args [[107]])) (fun _ => true),
          .conn (.ok .IdRequest) (fun _ => true)]
      = ([[.CloseSocket]], .panickedExit) := rfl

/-- C4 amended: a handler failure kills the listener loop (execution is not
isolated — the iteration ends the loop with a panic and later events are
never processed), but the `CloseSocket` teardown still executes (the
panicking connection's attempted write trace is the handler's packets
followed by the drop-scheduled `CloseSocket`), and the loop never reports a
handler-true exit, so the failing handler does not by itself terminate the
service. -/
theorem C4_amended_panic_kills_listener {Cmd : Type} (pid : Nat)
    (parse : List (List Nat) → Except (List Nat) Cmd)
    (run : Cmd → HandlerRun) (argv : List (List Nat)) (cmd : Cmd)
    (wOk : Nat → Bool) (rest : List (Evt Cmd))
    (h : parse argv = .ok cmd) (hp : (run cmd).outcome = .panicked) :
    listenLoop pid parse run (.conn (.ok (.Args argv)) wOk :: rest)
      = ([(run cmd).sends.map BaseCommand.Packet ++ [.CloseSocket]],
          .panickedExit) := by
  simp [listenLoop, stepConn, h, hp]

/-- Witness for the amended C4 at a concrete panicking handler. -/
theorem C4_amended_panic_kills_listener_witness :
    listenLoop 7 (fun _ : List (List Nat) => Except.ok ())
        (fun _ => ⟨[[99]], .panicked⟩)
        [.conn (.ok (.Args [[107]])) (fun _ => true),
          .conn (.ok .IdRequest) (fun _ => true)]
      = ([[.Packet [99], .CloseSocket]], .panickedExit) := by
  have h := C4_amended_panic_kills_listener 7
    (fun _ : List (List Nat) => Except.ok ()) (fun _ => ⟨[[99]], .panicked⟩)
    [[107]] () (fun _ => true) [.conn (.ok .IdRequest) (fun _ => true)]
    rfl rfl
  simpa using h

/-- C6 counterexample: on a connection whose first frame is `IdRequest` no
`RemoteClient` is constructed, yet the server's attempted write trace is
`IdResponse(pid)` followed by a `CloseSocket` (the shared epilogue at
console.rs:182) — the claim says such a connection never receives a
`CloseSocket` and is answered with only the `IdResponse`; likewise an
unexpected first frame (here a `Packet`) is answered with a `CloseSocket`
rather than being closed without a response. -/
theorem C6_counterexample :
    (stepConn 42 (fun _ : List (List Nat) => Except.ok ())
        (fun _ => ⟨[], .ret false⟩) (.ok .IdRequest)
        (fun _ => true)).dispatched = false ∧
    (stepConn 42 (fun _ : List (List Nat) => Except.ok ())
        (fun _ => ⟨[], .ret false⟩) (.ok .IdRequest)
        (fun _ => true)).writes = [.IdResponse 42, .CloseSocket] ∧
    (stepConn 42 (fun _ : List (List Nat) => Except.ok ())
        (fun _ => ⟨[], .ret false⟩) (.ok (.Packet [33]))
        (fun _ => true)).writes = [.CloseSocket] :=
  ⟨rfl, rfl, rfl⟩

/-- C6 amended: on a connection whose first frame constructs no
`RemoteClient` the server still writes a `CloseSocket`: an `IdRequest`
first frame is answered with `IdResponse(pid)` and then a `CloseSocket`
(the `CloseSocket` attempt is skipped only when the `IdResponse` write
itself failed), and any other unexpected first frame receives exactly one
`CloseSocket` frame and no other response (and no log); in every case no
handler runs and the loop keeps accepting. -/
theorem C6_amended_no_client_paths {Cmd : Type} (pid : Nat)
    (parse : List (List Nat) → Except (List Nat) Cmd)
    (run : Cmd → HandlerRun) (wOk : Nat → Bool) (n : Nat) (s : List Nat) :
    stepConn pid parse run (.ok .IdRequest) wOk
        = (if wOk 0 then ⟨[.IdResponse pid, .CloseSocket], false, .next⟩
           else ⟨[.IdResponse pid], false, .next⟩) ∧
    stepConn pid parse run (.ok (.IdResponse n)) wOk
        = ⟨[.CloseSocket], false, .next⟩ ∧
    stepConn pid parse run (.ok (.Packet s)) wOk
        = ⟨[.CloseSocket], false, .next⟩ ∧
    stepConn pid parse run (.ok .CloseSocket) wOk
        = ⟨[.CloseSocket], false, .next⟩ :=
  ⟨rfl, rfl, rfl, rfl⟩

/-- C8: when the first frame is `Args(argv)` and the host's parse of `argv`
fails, the server's attempted writes on that connection are exactly one
`Packet` carrying the error description, no handler is invoked (no
`RemoteClient` is constructed), and the listener loop continues exactly as
it would on the remaining events. -/
theorem C8_parse_failure_reports_and_continues {Cmd : Type} (pid : Nat)
    (parse : List (List Nat) → Except (List Nat) Cmd)
    (run : Cmd → HandlerRun) (argv : List (List Nat)) (e : List Nat)
    (wOk : Nat → Bool) (rest : List (Evt Cmd))
    (h : parse argv = .error e) :
    stepConn pid parse run (.ok (.Args argv)) wOk
        = ⟨[.Packet e], false, .next⟩ ∧
    listenLoop pid parse run (.conn (.ok (.Args argv)) wOk :: rest)
        = ([.Packet e] :: (listenLoop pid parse run rest).1,
            (listenLoop pid parse run rest).2) := by
  have h1 : stepConn pid parse run (.ok (.Args argv)) wOk
      = ⟨[.Packet e], false, .next⟩ := by
    simp [stepConn, h]
  refine ⟨h1, ?_⟩
  cases hl : listenLoop pid parse run rest with
  | mk traces res => simp [listenLoop, h1, hl]

/-- Witness for C8 with a concretely failing parser. -/
theorem C8_parse_failure_reports_and_continues_witness :
    stepConn 5
        (fun _ : List (List Nat) => (Except.error [98] : Except (List Nat) Unit))
        (fun _ => ⟨[], .ret false⟩) (.ok (.Args [[120]])) (fun _ => true)
        = ⟨[.Packet [98]], false, .next⟩ ∧
    listenLoop 5
        (fun _ : List (List Nat) => (Except.error [98] : Except (List Nat) Unit))
        (fun _ => ⟨[], .ret false⟩)
        [.conn (.ok (.Args [[120]])) (fun _ => true)]
        = ([[.Packet [98]]], .starved) := by
  have h := C8_parse_failure_reports_and_continues 5
    (fun _ : List (List Nat) => (Except.error [98] : Except (List Nat) Unit))
    (fun _ => ⟨[], .ret false⟩) [[120]] [98] (fun _ => true) [] rfl
  simpa using h

end Hypermangle
